import Mathlib

/-!
Verification of `react-filament`'s `src/FilamentScene.web.tsx`
(the `FilamentScene` context-provider component) against its
natural-language specification.

The component is embedded shallowly:

* the ten resource handles (`engine` plus the eight engine-derived
  resources plus the `choreographer`) are `Option`-valued fields of a
  `Handles` record (`none` = the asynchronous acquisition has not
  settled, `some v` = the handle is set to the native reference `v`);
* the `useMemo` computation of the context `value`
  (FilamentScene.web.tsx lines 92-132) becomes `mkValue`;
* the render body (lines 137-147) becomes `FilamentScene.render`,
  producing a `ReactTree` value that mirrors the JSX structure
  (`FilamentContext.Provider` > `Configurator` >
  `RenderCallbackContext.RenderContextProvider` > [`canvas`, children]);
* React's `useMemo` caching, the deps-array behaviour of the external
  `useDisposableResource` hook, and `ref` updates across renders are
  modelled explicitly where a claim is about them.
-/

/-- The set of the ten resource handles held by the component, each either
unset (`none`, acquisition pending or failed) or set (`some v`).
Field order follows the null-checks at FilamentScene.web.tsx lines 93-103. -/
structure Handles (α : Type) where
  transformManager : Option α
  renderableManager : Option α
  scene : Option α
  lightManager : Option α
  view : Option α
  camera : Option α
  renderer : Option α
  nameComponentManager : Option α
  choreographer : Option α
  engine : Option α
deriving DecidableEq, Repr

/-- The published context snapshot (`FilamentContextType`): exactly the ten
resource references plus the static worklet-context reference, under the
fixed names of the object literal at FilamentScene.web.tsx lines 108-120. -/
structure FilamentContextType (α ω : Type) where
  engine : α
  transformManager : α
  renderableManager : α
  scene : α
  lightManager : α
  view : α
  camera : α
  renderer : α
  nameComponentManager : α
  workletContext : ω
  choreographer : α
deriving DecidableEq, Repr

/-- The `useMemo` body at FilamentScene.web.tsx lines 92-120: if any of the
ten handles is null, return `undefined`; otherwise build the snapshot
object.  `wctx` is the imported module constant `FilamentWorkletContext`. -/
def mkValue (wctx : ω) (h : Handles α) : Option (FilamentContextType α ω) :=
  match h.transformManager, h.renderableManager, h.scene, h.lightManager,
        h.view, h.camera, h.renderer, h.nameComponentManager,
        h.choreographer, h.engine with
  | some tm, some rm, some sc, some lm, some vw, some cam, some rd,
    some ncm, some ch, some eng =>
      some { engine := eng
             transformManager := tm
             renderableManager := rm
             scene := sc
             lightManager := lm
             view := vw
             camera := cam
             renderer := rd
             nameComponentManager := ncm
             workletContext := wctx
             choreographer := ch }
  | _, _, _, _, _, _, _, _, _, _ => none

/-- The readiness gate: the context value exists.  Derived, as in the code,
from the `value == null` test at line 137. -/
def gateOpen (wctx : ω) (h : Handles α) : Bool :=
  (mkValue wctx h).isSome

/-- The `rendererProps` object `{ frameRateOptions }` built at line 134. -/
structure RendererProps (ρ : Type) where
  frameRateOptions : ρ
deriving DecidableEq, Repr

/-- Render output of the component, mirroring the JSX tree shapes the render
body can produce (FilamentScene.web.tsx lines 137-147).  `null` is React's
empty output; `fallbackElem` wraps the caller-supplied fallback element;
the remaining constructors are the elements of the ready branch. -/
inductive ReactTree (α ω ρ φ χ : Type) where
  | null
  | fallbackElem (f : φ)
  | contextProvider (value : FilamentContextType α ω) (child : ReactTree α ω ρ φ χ)
  | configurator (rendererProps : RendererProps ρ) (child : ReactTree α ω ρ φ χ)
  | renderContextProvider (child : ReactTree α ω ρ φ χ)
  | fragment (first : ReactTree α ω ρ φ χ) (second : ReactTree α ω ρ φ χ)
  | canvas
  | childrenElem (c : χ)
deriving DecidableEq, Repr

namespace FilamentScene

/-- The render body of `FilamentScene` (lines 137-147): if the context value
is null return `fallback ?? null`, else mount
`FilamentContext.Provider` > `Configurator` > `RenderContextProvider`
containing the `canvas` element followed by `children`. -/
def render (wctx : ω) (h : Handles α) (fallback : Option φ)
    (rendererProps : RendererProps ρ) (children : χ) : ReactTree α ω ρ φ χ :=
  match mkValue wctx h with
  | none =>
      match fallback with
      | some f => .fallbackElem f
      | none => .null
  | some v =>
      .contextProvider v (.configurator rendererProps
        (.renderContextProvider (.fragment .canvas (.childrenElem children))))

end FilamentScene

/-- `true` iff the tree contains a `FilamentContext.Provider` node, i.e. a
context snapshot is observable by descendants. -/
def publishesContext : ReactTree α ω ρ φ χ → Bool
  | .contextProvider _ _ => true
  | .configurator _ t => publishesContext t
  | .renderContextProvider t => publishesContext t
  | .fragment a b => publishesContext a || publishesContext b
  | _ => false

/-- `true` iff the tree contains the `canvas` (drawable surface) element. -/
def containsCanvas : ReactTree α ω ρ φ χ → Bool
  | .canvas => true
  | .contextProvider _ t => containsCanvas t
  | .configurator _ t => containsCanvas t
  | .renderContextProvider t => containsCanvas t
  | .fragment a b => containsCanvas a || containsCanvas b
  | _ => false

/-- `true` iff the tree contains the caller's `children`. -/
def containsChildren : ReactTree α ω ρ φ χ → Bool
  | .childrenElem _ => true
  | .contextProvider _ t => containsChildren t
  | .configurator _ t => containsChildren t
  | .renderContextProvider t => containsChildren t
  | .fragment a b => containsChildren a || containsChildren b
  | _ => false

/-- `true` iff the tree contains the nested render-callback provider
(`RenderCallbackContext.RenderContextProvider`). -/
def containsRenderContextProvider : ReactTree α ω ρ φ χ → Bool
  | .renderContextProvider _ => true
  | .contextProvider _ t => containsRenderContextProvider t
  | .configurator _ t => containsRenderContextProvider t
  | .fragment a b => containsRenderContextProvider a || containsRenderContextProvider b
  | _ => false

/-- All ten handles are set (the spec's wording of the readiness gate). -/
def allSet (h : Handles α) : Prop :=
  h.transformManager.isSome ∧ h.renderableManager.isSome ∧ h.scene.isSome ∧
  h.lightManager.isSome ∧ h.view.isSome ∧ h.camera.isSome ∧
  h.renderer.isSome ∧ h.nameComponentManager.isSome ∧
  h.choreographer.isSome ∧ h.engine.isSome

instance (h : Handles α) : Decidable (allSet h) := by
  unfold allSet; infer_instance

/-- Some handle among the ten is unset. -/
def someUnset (h : Handles α) : Prop :=
  h.transformManager = none ∨ h.renderableManager = none ∨ h.scene = none ∨
  h.lightManager = none ∨ h.view = none ∨ h.camera = none ∨
  h.renderer = none ∨ h.nameComponentManager = none ∨
  h.choreographer = none ∨ h.engine = none

instance (h : Handles α) : Decidable (someUnset h) := by
  have inst : ∀ o : Option α, Decidable (o = none) := fun o =>
    decidable_of_iff (o.isNone = true) (by cases o <;> simp)
  unfold someUnset
  exact @instDecidableOr _ _ (inst _) (@instDecidableOr _ _ (inst _)
    (@instDecidableOr _ _ (inst _) (@instDecidableOr _ _ (inst _)
    (@instDecidableOr _ _ (inst _) (@instDecidableOr _ _ (inst _)
    (@instDecidableOr _ _ (inst _) (@instDecidableOr _ _ (inst _)
    (@instDecidableOr _ _ (inst _) (inst _)))))))))

/-- The handle state with all ten handles unset (initial mount, nothing
settled yet). -/
def Handles.empty : Handles α :=
  ⟨none, none, none, none, none, none, none, none, none, none⟩

theorem mkValue_isSome_iff_allSet (wctx : ω) (h : Handles α) :
    (mkValue wctx h).isSome = true ↔ allSet h := by
  rcases h with ⟨tm, rm, sc, lm, vw, cam, rd, ncm, ch, eng⟩
  cases tm <;> cases rm <;> cases sc <;> cases lm <;> cases vw <;>
    cases cam <;> cases rd <;> cases ncm <;> cases ch <;> cases eng <;>
    simp [mkValue, allSet]

theorem mkValue_eq_none_of_someUnset (wctx : ω) (h : Handles α)
    (hu : someUnset h) : mkValue wctx h = none := by
  have hns : ¬ allSet h := by
    rcases hu with e | e | e | e | e | e | e | e | e | e <;> simp [allSet, e]
  cases hmv : mkValue wctx h with
  | none => rfl
  | some v =>
      exact absurd ((mkValue_isSome_iff_allSet wctx h).mp (by rw [hmv]; rfl)) hns

/-- The render output of the gate-closed branch (line 137): the fallback
element when supplied, else nothing (`fallback ?? null`). -/
def closedOutput (fallback : Option φ) : ReactTree α ω ρ φ χ :=
  match fallback with
  | some f => .fallbackElem f
  | none => .null

theorem render_of_mkValue_none (wctx : ω) (h : Handles α) (fallback : Option φ)
    (rp : RendererProps ρ) (ch : χ) (hv : mkValue wctx h = none) :
    FilamentScene.render wctx h fallback rp ch = closedOutput fallback := by
  unfold FilamentScene.render closedOutput
  rw [hv]

theorem publishesContext_closedOutput (fallback : Option φ) :
    publishesContext (α := α) (ω := ω) (ρ := ρ) (χ := χ)
      (closedOutput fallback) = false := by
  cases fallback <;> rfl

/-- Identifies one of the ten resource handles. -/
inductive HandleId where
  | transformManager | renderableManager | scene | lightManager | view
  | camera | renderer | nameComponentManager | choreographer | engine
deriving DecidableEq, Repr

/-- Set one handle, leaving the other nine untouched (one asynchronous
acquisition settling with native reference `v`). -/
def setHandle (h : Handles α) : HandleId → α → Handles α
  | .transformManager, v => { h with transformManager := some v }
  | .renderableManager, v => { h with renderableManager := some v }
  | .scene, v => { h with scene := some v }
  | .lightManager, v => { h with lightManager := some v }
  | .view, v => { h with view := some v }
  | .camera, v => { h with camera := some v }
  | .renderer, v => { h with renderer := some v }
  | .nameComponentManager, v => { h with nameComponentManager := some v }
  | .choreographer, v => { h with choreographer := some v }
  | .engine, v => { h with engine := some v }

/-- Apply a sequence of settle events (handle id, native reference) in
order. -/
def applyEvents (h : Handles α) (es : List (HandleId × α)) : Handles α :=
  es.foldl (fun acc e => setHandle acc e.1 e.2) h

theorem setHandle_comm (h : Handles α) (i j : HandleId) (v w : α)
    (hij : i ≠ j) :
    setHandle (setHandle h i v) j w = setHandle (setHandle h j w) i v := by
  cases i <;> cases j <;> first | (exact absurd rfl hij) | rfl

/-- Applying the same set of settle events with pairwise-distinct handle
ids in any order yields the same final handle state. -/
theorem applyEvents_perm (h : Handles α) (es₁ es₂ : List (HandleId × α))
    (hp : es₁.Perm es₂) (hnd : (es₁.map Prod.fst).Nodup) :
    applyEvents h es₁ = applyEvents h es₂ := by
  unfold applyEvents
  refine hp.foldl_eq' ?_ h
  intro x hx y hy b
  by_cases hxy : x = y
  · rw [hxy]
  · have hfst : x.1 ≠ y.1 := fun hf =>
      hxy (List.inj_on_of_nodup_map hnd hx hy hf)
    exact setHandle_comm b x.1 y.1 x.2 y.2 hfst

/-- C1: if any one of the ten resource handles is unset, the component
publishes no context snapshot: the memoized `value` is `undefined`, the
render output is the fallback (or nothing), and no
`FilamentContext.Provider` node — hence no partial snapshot — is
observable by descendants. -/
theorem C1_no_partial_context (wctx : ω) (h : Handles α) (fallback : Option φ)
    (rp : RendererProps ρ) (ch : χ) (hu : someUnset h) :
    mkValue wctx h = none ∧
      FilamentScene.render wctx h fallback rp ch = closedOutput fallback ∧
      publishesContext (FilamentScene.render wctx h fallback rp ch) = false := by
  have hv := mkValue_eq_none_of_someUnset wctx h hu
  have hr := render_of_mkValue_none wctx h fallback rp ch hv
  exact ⟨hv, hr, by rw [hr]; exact publishesContext_closedOutput fallback⟩

/-- A state with nine handles set and the engine still unset. -/
def hNine : Handles Nat :=
  ⟨some 1, some 2, some 3, some 4, some 5, some 6, some 7, some 8, some 9, none⟩

theorem C1_no_partial_context_witness :
    someUnset hNine ∧
      (mkValue () hNine = none ∧
        FilamentScene.render () hNine (some 7) ⟨0⟩ 3 =
          closedOutput (some 7) ∧
        publishesContext (FilamentScene.render () hNine (some 7) ⟨0⟩ 3) = false) :=
  ⟨by decide, C1_no_partial_context () hNine (some 7) ⟨0⟩ 3 (by decide)⟩

/-- C2: the readiness gate is a pure function of the current handle values:
it is open iff all ten handles are set, and applying the same set of
settle events (pairwise-distinct handles) in any two orders yields the
same final handle state and hence the identical gate value. -/
theorem C2_gate_pure_permutation_invariant :
    (∀ (wctx : ω) (h : Handles α), gateOpen wctx h = true ↔ allSet h) ∧
      (∀ (wctx : ω) (h : Handles α) (es₁ es₂ : List (HandleId × α)),
        es₁.Perm es₂ → (es₁.map Prod.fst).Nodup →
        applyEvents h es₁ = applyEvents h es₂ ∧
          gateOpen wctx (applyEvents h es₁) = gateOpen wctx (applyEvents h es₂)) := by
  constructor
  · intro wctx h
    exact mkValue_isSome_iff_allSet wctx h
  · intro wctx h es₁ es₂ hp hnd
    have he := applyEvents_perm h es₁ es₂ hp hnd
    exact ⟨he, by rw [he]⟩

/-- The ten settle events in source order. -/
def esForward : List (HandleId × Nat) :=
  [(.transformManager, 1), (.renderableManager, 2), (.scene, 3),
   (.lightManager, 4), (.view, 5), (.camera, 6), (.renderer, 7),
   (.nameComponentManager, 8), (.choreographer, 9), (.engine, 10)]

/-- The same ten settle events in reverse order. -/
def esBackward : List (HandleId × Nat) := esForward.reverse

theorem C2_gate_pure_permutation_invariant_witness :
    gateOpen () hNine = false ∧
      applyEvents Handles.empty esForward = applyEvents Handles.empty esBackward ∧
        gateOpen () (applyEvents Handles.empty esForward) =
          gateOpen () (applyEvents Handles.empty esBackward) := by
  refine ⟨?_, ?_⟩
  · have hiff := C2_gate_pure_permutation_invariant.1 () hNine
    cases hg : gateOpen () hNine with
    | false => rfl
    | true => exact absurd (hiff.mp hg) (by decide)
  · exact C2_gate_pure_permutation_invariant.2 () Handles.empty esForward
      esBackward (by decide) (by decide)

theorem containsChildren_closedOutput (fallback : Option φ) :
    containsChildren (α := α) (ω := ω) (ρ := ρ) (χ := χ)
      (closedOutput fallback) = false := by
  cases fallback <;> rfl

theorem containsCanvas_closedOutput (fallback : Option φ) :
    containsCanvas (α := α) (ω := ω) (ρ := ρ) (χ := χ)
      (closedOutput fallback) = false := by
  cases fallback <;> rfl

theorem mkValue_eq_none_of_gate_closed (wctx : ω) (h : Handles α)
    (hg : gateOpen wctx h = false) : mkValue wctx h = none := by
  unfold gateOpen at hg
  cases hmv : mkValue wctx h with
  | none => rfl
  | some v => rw [hmv] at hg; exact absurd hg (by simp)

/-- C3 counterexample: on mount with no fallback and all acquisitions
pending (all ten handles unset), the render output is `null` — it does
NOT contain the canvas element, because the code renders the canvas only
inside the ready branch (`if (value == null) return fallback ?? null`). -/
theorem C3_counterexample_no_canvas_while_pending :
    FilamentScene.render () (Handles.empty : Handles Nat)
        (none : Option Nat) (⟨0⟩ : RendererProps Nat) (3 : Nat) =
      ReactTree.null ∧
      containsCanvas (FilamentScene.render () (Handles.empty : Handles Nat)
        (none : Option Nat) (⟨0⟩ : RendererProps Nat) (3 : Nat)) = false := by
  exact ⟨rfl, rfl⟩

/-- C3 amended: the drawable surface (canvas) element is present in the
render output exactly when the readiness gate is open; while the gate is
closed (any acquisition pending) the output is the fallback (or nothing)
and contains no canvas element.  (The single `canvasRef` slot is stable
across renders, but the element it is attached to is only mounted in the
ready branch.) -/
theorem C3_amended_canvas_iff_gate_open (wctx : ω) (h : Handles α)
    (fallback : Option φ) (rp : RendererProps ρ) (ch : χ) :
    containsCanvas (FilamentScene.render wctx h fallback rp ch) =
      gateOpen wctx h ∧
      (gateOpen wctx h = false →
        FilamentScene.render wctx h fallback rp ch = closedOutput fallback) := by
  constructor
  · unfold FilamentScene.render gateOpen
    cases hmv : mkValue wctx h with
    | none => simp [containsCanvas_closedOutput, closedOutput]; cases fallback <;> rfl
    | some v => rfl
  · intro hg
    exact render_of_mkValue_none wctx h fallback rp ch
      (mkValue_eq_none_of_gate_closed wctx h hg)

theorem C3_amended_canvas_iff_gate_open_witness :
    gateOpen () (Handles.empty : Handles Nat) = false ∧
      FilamentScene.render () (Handles.empty : Handles Nat)
          (none : Option Nat) (⟨0⟩ : RendererProps Nat) (3 : Nat) =
        closedOutput none :=
  ⟨by decide,
    (C3_amended_canvas_iff_gate_open () (Handles.empty : Handles Nat)
      (none : Option Nat) (⟨0⟩ : RendererProps Nat) (3 : Nat)).2 (by decide)⟩

/-- C4: whenever the readiness gate is closed, the render output is exactly
the caller-supplied fallback element if one was provided and `null`
otherwise; the caller's children are never part of the output. -/
theorem C4_closed_renders_fallback_only (wctx : ω) (h : Handles α)
    (fallback : Option φ) (rp : RendererProps ρ) (ch : χ)
    (hg : gateOpen wctx h = false) :
    FilamentScene.render wctx h fallback rp ch = closedOutput fallback ∧
      (∀ f, fallback = some f →
        FilamentScene.render wctx h fallback rp ch = .fallbackElem f) ∧
      (fallback = none →
        FilamentScene.render wctx h fallback rp ch = .null) ∧
      containsChildren (FilamentScene.render wctx h fallback rp ch) = false := by
  have hr := render_of_mkValue_none wctx h fallback rp ch
    (mkValue_eq_none_of_gate_closed wctx h hg)
  refine ⟨hr, ?_, ?_, ?_⟩
  · intro f hf; rw [hr, hf]; rfl
  · intro hf; rw [hr, hf]; rfl
  · rw [hr]; exact containsChildren_closedOutput fallback

theorem C4_closed_renders_fallback_only_witness :
    gateOpen () hNine = false ∧
      FilamentScene.render () hNine (some 7) (⟨0⟩ : RendererProps Nat)
          (3 : Nat) = ReactTree.fallbackElem 7 ∧
        containsChildren (FilamentScene.render () hNine (some 7)
          (⟨0⟩ : RendererProps Nat) (3 : Nat)) = false :=
  ⟨by decide,
    ((C4_closed_renders_fallback_only () hNine (some 7)
        (⟨0⟩ : RendererProps Nat) (3 : Nat) (by decide)).2.1 7 rfl),
    (C4_closed_renders_fallback_only () hNine (some 7)
        (⟨0⟩ : RendererProps Nat) (3 : Nat) (by decide)).2.2.2⟩

/-- C5: whenever all ten handles are set, the context value is exactly the
snapshot exposing the ten resource references plus the static
worklet-context reference under the fixed field names, and the render
output mounts the provider with the `Configurator`, the nested
render-callback provider and the canvas element beneath it. -/
theorem C5_ready_snapshot_shape (wctx : ω) (fallback : Option φ)
    (rp : RendererProps ρ) (ch : χ)
    (tm rm sc lm vw cam rd ncm chg eng : α) :
    mkValue wctx (⟨some tm, some rm, some sc, some lm, some vw, some cam,
        some rd, some ncm, some chg, some eng⟩ : Handles α) =
      some ⟨eng, tm, rm, sc, lm, vw, cam, rd, ncm, wctx, chg⟩ ∧
      FilamentScene.render wctx (⟨some tm, some rm, some sc, some lm,
          some vw, some cam, some rd, some ncm, some chg, some eng⟩ :
          Handles α) fallback rp ch =
        ReactTree.contextProvider ⟨eng, tm, rm, sc, lm, vw, cam, rd, ncm, wctx, chg⟩
          (.configurator rp (.renderContextProvider
            (.fragment .canvas (.childrenElem ch)))) ∧
      containsRenderContextProvider (FilamentScene.render wctx
        (⟨some tm, some rm, some sc, some lm, some vw, some cam, some rd,
          some ncm, some chg, some eng⟩ : Handles α) fallback rp ch) = true ∧
      containsCanvas (FilamentScene.render wctx
        (⟨some tm, some rm, some sc, some lm, some vw, some cam, some rd,
          some ncm, some chg, some eng⟩ : Handles α) fallback rp ch) = true :=
  ⟨rfl, rfl, rfl, rfl⟩

/-- Outcome of one asynchronous acquisition: still pending, failed (rejected
or never resolving), or resolved with a native reference. -/
inductive Outcome (α : Type) where
  | pending
  | failed
  | resolved (v : α)
deriving DecidableEq, Repr

/-- Modelled from the spec: `useDisposableResource` (external hook from
react-native-filament; only its call sites at FilamentScene.web.tsx lines
62-89 are in src) exposes the acquisition's value once resolved and keeps
the handle unset otherwise ("acquisition failure ... surfaces as the
handle never transitioning to set"). -/
def handleOfOutcome : Outcome α → Option α
  | .resolved v => some v
  | .pending => none
  | .failed => none

/-- Per-hook bookkeeping across renders: the deps value seen on the last
render (`none` before the first render), how many acquisitions were
issued, and how many previously acquired handles were released. -/
structure HookState (D : Type) where
  lastDeps : Option D
  issued : Nat
  released : Nat
deriving DecidableEq, Repr

def HookState.init : HookState D := ⟨none, 0, 0⟩

/-- Modelled from the spec: one render step of `useDisposableResource` with
deps value `d`.  On the first render it issues an acquisition; on later
renders it re-issues only when the deps value changed, releasing the
previously acquired handle (if it had resolved) as the replacement is
acquired ("guaranteed release on every exit path (success, replacement,
teardown)").  `oracle j` is the outcome of the j-th issued acquisition. -/
def hookStep [DecidableEq D] (oracle : Nat → Outcome α) (d : D)
    (s : HookState D) : HookState D :=
  match s.lastDeps with
  | none => ⟨some d, s.issued + 1, s.released⟩
  | some d0 =>
      if d0 = d then ⟨some d, s.issued, s.released⟩
      else ⟨some d, s.issued + 1,
        s.released +
          (if (handleOfOutcome (oracle (s.issued - 1))).isSome then 1 else 0)⟩

/-- Run the hook over a whole sequence of per-render deps values, starting
from the pre-mount state. -/
def hookRun [DecidableEq D] (oracle : Nat → Outcome α) (ds : List D) :
    HookState D :=
  ds.foldl (fun s d => hookStep oracle d s) HookState.init

/-- The handle currently held by the hook: the outcome of the most recently
issued acquisition, unset before the first issuance. -/
def hookHandle (oracle : Nat → Outcome α) (s : HookState D) : Option α :=
  if s.issued = 0 then none else handleOfOutcome (oracle (s.issued - 1))

/-- A `useMemo` cache cell: the deps value of the last computation, the
cached value, and an identity tag (bumped on every recomputation, so equal
tags model reference equality of the memoized object). -/
structure MemoState (D V : Type) where
  deps : D
  val : V
  tag : Nat
deriving DecidableEq, Repr

/-- React's `useMemo` on a render with deps value `d`: reuse the cached cell
(same value, same identity) when the deps are unchanged, otherwise
recompute, producing a fresh identity. -/
def useMemoStep [DecidableEq D] (compute : D → V) (d : D) :
    Option (MemoState D V) → MemoState D V
  | none => ⟨d, compute d, 0⟩
  | some s => if s.deps = d then s else ⟨d, compute d, s.tag + 1⟩

/-- The `rendererProps` props object the `Configurator` element receives in
the tree, if any (FilamentScene.web.tsx line 140). -/
def configuratorProps : ReactTree α ω ρ φ χ → Option (RendererProps ρ)
  | .contextProvider _ t => configuratorProps t
  | .configurator rp _ => some rp
  | .renderContextProvider t => configuratorProps t
  | .fragment a b => (configuratorProps a).orElse (fun _ => configuratorProps b)
  | _ => none

theorem render_of_mkValue_some (wctx : ω) (h : Handles α) (fallback : Option φ)
    (rp : RendererProps ρ) (ch : χ) (v : FilamentContextType α ω)
    (hv : mkValue wctx h = some v) :
    FilamentScene.render wctx h fallback rp ch =
      .contextProvider v (.configurator rp (.renderContextProvider
        (.fragment .canvas (.childrenElem ch)))) := by
  unfold FilamentScene.render
  rw [hv]

theorem containsCanvas_render (wctx : ω) (h : Handles α) (fallback : Option φ)
    (rp : RendererProps ρ) (ch : χ) :
    containsCanvas (FilamentScene.render wctx h fallback rp ch) =
      gateOpen wctx h := by
  unfold gateOpen
  cases hmv : mkValue wctx h with
  | none =>
      rw [render_of_mkValue_none wctx h fallback rp ch hmv,
        containsCanvas_closedOutput]
      rfl
  | some v => rw [render_of_mkValue_some wctx h fallback rp ch v hmv]; rfl

/-- `canvasRef.current` seen by each render, as a list: the ref starts null
(`useRef(null)`, line 57), render k reads the current ref (this is the
`canvas` argument `useEngine` receives at line 59), and after the commit
React attaches the ref to the canvas element iff the output mounted one. -/
def engineCanvasArgs (wctx : ω) (fallback : Option φ) (rp : RendererProps ρ)
    (ch : χ) : List (Handles α) → Bool → List Bool
  | [], _ => []
  | h :: rest, ref =>
      ref :: engineCanvasArgs wctx fallback rp ch rest
        (containsCanvas (FilamentScene.render wctx h fallback rp ch))

/-- A concrete acquisition oracle where every acquisition resolves. -/
def oracleA : Nat → Outcome Nat := fun j => .resolved (j + 100)

/-- A concrete acquisition oracle where every acquisition stays pending. -/
def oracleP : Nat → Outcome Nat := fun _ => .pending

/-- A fully set handle state. -/
def hAll : Handles Nat :=
  ⟨some 1, some 2, some 3, some 4, some 5, some 6, some 7, some 8, some 9, some 10⟩

/-- `hAll` with a different engine identity. -/
def hAllB : Handles Nat := { hAll with engine := some 20 }

/-- C6 counterexample: after the engine identity changes (deps trace
`[some 1, some 2]`), each of the eight engine-derived hooks (deps
`[engine]`, lines 62-81) has issued a second acquisition, but the
choreographer hook — whose call at lines 84-89 passes no deps, so its
deps never change across renders — has still issued only one: not all
nine dependent acquisitions are re-issued. -/
theorem C6_counterexample_choreographer_not_reissued :
    (hookRun oracleA [(some 1 : Option Nat), some 2]).issued = 2 ∧
      (hookRun oracleA (([(some 1 : Option Nat), some 2]).map
        (fun _ => ()))).issued = 1 ∧
      (hookRun oracleA (([(some 1 : Option Nat), some 2]).map
        (fun _ => ()))).issued ≠ 2 := by
  refine ⟨rfl, rfl, ?_⟩
  decide

/-- C6 amended: for every change of the upstream engine handle's identity,
the eight engine-derived resource acquisitions are re-issued and each
previously acquired handle (if resolved) is released as its replacement
is acquired; the choreographer hook is left untouched; and the context
value memo recomputes, so a fresh snapshot (new identity) is built once
the handles re-settle. -/
theorem C6_amended_engine_change_reacquires_eight {ε α ω : Type}
    [DecidableEq ε] [DecidableEq α]
    (oracle oracleC : Nat → Outcome α) (wctx : ω)
    (s : HookState (Option ε)) (d0 d : Option ε)
    (hs : s.lastDeps = some d0) (hne : d0 ≠ d)
    (t : HookState Unit) (ht : t.lastDeps = some ())
    (vs : MemoState (Handles α) (Option (FilamentContextType α ω)))
    (h' : Handles α) (heng : vs.deps.engine ≠ h'.engine) :
    (hookStep oracle d s).issued = s.issued + 1 ∧
      (hookStep oracle d s).released = s.released +
        (if (handleOfOutcome (oracle (s.issued - 1))).isSome then 1 else 0) ∧
      hookStep oracleC () t = t ∧
      useMemoStep (mkValue wctx) h' (some vs) =
        ⟨h', mkValue wctx h', vs.tag + 1⟩ := by
  obtain ⟨ld, i, r⟩ := s
  obtain ⟨lt, ti, tr⟩ := t
  simp only at hs ht
  subst hs; subst ht
  refine ⟨?_, ?_, ?_, ?_⟩
  · simp [hookStep, hne]
  · simp [hookStep, hne]
  · simp [hookStep]
  · have hd : vs.deps ≠ h' := fun e => heng (by rw [e])
    simp [useMemoStep, hd]

theorem C6_amended_engine_change_reacquires_eight_witness :
    (hookStep oracleA (some 2 : Option Nat) ⟨some (some 1), 1, 0⟩).issued = 2 ∧
      (hookStep oracleA (some 2 : Option Nat) ⟨some (some 1), 1, 0⟩).released =
        0 + (if (handleOfOutcome (oracleA 0)).isSome then 1 else 0) ∧
      hookStep oracleA () (⟨some (), 1, 0⟩ : HookState Unit) = ⟨some (), 1, 0⟩ ∧
      useMemoStep (mkValue ()) hAllB (some ⟨hAll, mkValue () hAll, 0⟩) =
        ⟨hAllB, mkValue () hAllB, 1⟩ :=
  C6_amended_engine_change_reacquires_eight oracleA oracleA ()
    ⟨some (some 1), 1, 0⟩ (some 1) (some 2) rfl (by decide)
    ⟨some (), 1, 0⟩ rfl ⟨hAll, mkValue () hAll, 0⟩ hAllB (by decide)

/-- C7: a change of the frame-rate policy with all handle identities
unchanged leaves the context snapshot's memo cell (hence its identity)
untouched, recomputes the `rendererProps` memo to the updated options,
and the `Configurator` element in the output receives those updated
options; an unchanged options value reuses the cached `rendererProps`
object, so unrelated re-renders do not produce a new props object. -/
theorem C7_framerate_update_keeps_snapshot {α ω ρ φ χ : Type}
    [DecidableEq α] [DecidableEq ρ]
    (wctx : ω) (h : Handles α) (fallback : Option φ) (ch : χ)
    (vs : MemoState (Handles α) (Option (FilamentContextType α ω)))
    (hdeps : vs.deps = h)
    (f f' : ρ) (rs : MemoState ρ (RendererProps ρ)) (hrs : rs.deps = f)
    (hne : f ≠ f') (hg : gateOpen wctx h = true) :
    useMemoStep (mkValue wctx) h (some vs) = vs ∧
      useMemoStep RendererProps.mk f' (some rs) =
        ⟨f', ⟨f'⟩, rs.tag + 1⟩ ∧
      configuratorProps (FilamentScene.render wctx h fallback
        (⟨f'⟩ : RendererProps ρ) ch) = some ⟨f'⟩ ∧
      useMemoStep RendererProps.mk f (some rs) = rs := by
  refine ⟨?_, ?_, ?_, ?_⟩
  · simp [useMemoStep, hdeps]
  · have : rs.deps ≠ f' := by rw [hrs]; exact hne
    simp [useMemoStep, this]
  · unfold gateOpen at hg
    obtain ⟨v, hv⟩ := Option.isSome_iff_exists.mp hg
    rw [render_of_mkValue_some wctx h fallback ⟨f'⟩ ch v hv]
    rfl
  · simp [useMemoStep, hrs]

theorem C7_framerate_update_keeps_snapshot_witness :
    useMemoStep (mkValue ()) hAll (some ⟨hAll, mkValue () hAll, 5⟩) =
        ⟨hAll, mkValue () hAll, 5⟩ ∧
      useMemoStep RendererProps.mk (60 : Nat) (some ⟨30, ⟨30⟩, 2⟩) =
        ⟨60, ⟨60⟩, 3⟩ ∧
      configuratorProps (FilamentScene.render () hAll (some (7 : Nat))
        (⟨60⟩ : RendererProps Nat) (3 : Nat)) = some ⟨60⟩ ∧
      useMemoStep RendererProps.mk (30 : Nat) (some ⟨30, ⟨30⟩, 2⟩) =
        ⟨30, ⟨30⟩, 2⟩ :=
  C7_framerate_update_keeps_snapshot () hAll (some 7) 3
    ⟨hAll, mkValue () hAll, 5⟩ rfl 30 60 ⟨30, ⟨30⟩, 2⟩ rfl
    (by decide) (by decide)

/-- Select one of the ten handle fields by id. -/
def getHandle (h : Handles α) : HandleId → Option α
  | .transformManager => h.transformManager
  | .renderableManager => h.renderableManager
  | .scene => h.scene
  | .lightManager => h.lightManager
  | .view => h.view
  | .camera => h.camera
  | .renderer => h.renderer
  | .nameComponentManager => h.nameComponentManager
  | .choreographer => h.choreographer
  | .engine => h.engine

theorem someUnset_of_getHandle_none (h : Handles α) (i : HandleId)
    (hi : getHandle h i = none) : someUnset h := by
  cases i <;> unfold someUnset <;> unfold getHandle at hi <;> tauto

/-- C8: an acquisition that fails or never resolves produces no error from
this component: the hook's handle stays unset, and any handle among the
ten being unset only closes the gate, so the render output is the
fallback (or nothing) on this and every subsequent render with that
state — nothing is thrown (the render embedding is a total function into
`ReactTree`, which has no error case). -/
theorem C8_acquisition_failure_is_silent {α ω ρ φ χ D : Type}
    (wctx : ω) (fallback : Option φ) (rp : RendererProps ρ) (ch : χ) :
    (∀ (oracle : Nat → Outcome α) (s : HookState D),
      oracle (s.issued - 1) = .pending ∨ oracle (s.issued - 1) = .failed →
      hookHandle oracle s = none) ∧
      (∀ (h : Handles α) (i : HandleId), getHandle h i = none →
        gateOpen wctx h = false ∧
        FilamentScene.render wctx h fallback rp ch = closedOutput fallback) := by
  constructor
  · intro oracle s ho
    unfold hookHandle
    rcases ho with ho | ho <;> rw [ho] <;> simp [handleOfOutcome]
  · intro h i hi
    have hu := someUnset_of_getHandle_none h i hi
    have hv := mkValue_eq_none_of_someUnset wctx h hu
    exact ⟨by unfold gateOpen; rw [hv]; rfl,
      render_of_mkValue_none wctx h fallback rp ch hv⟩

theorem C8_acquisition_failure_is_silent_witness :
    hookHandle oracleP (⟨some (), 1, 0⟩ : HookState Unit) = (none : Option Nat) ∧
      (gateOpen () hNine = false ∧
        FilamentScene.render () hNine (some (7 : Nat))
          (⟨0⟩ : RendererProps Nat) (3 : Nat) = closedOutput (some 7)) :=
  ⟨(C8_acquisition_failure_is_silent (D := Unit) () (some (7 : Nat))
      (⟨0⟩ : RendererProps Nat) (3 : Nat)).1 oracleP ⟨some (), 1, 0⟩
      (Or.inl rfl),
    (C8_acquisition_failure_is_silent (D := Unit) () (some (7 : Nat))
      (⟨0⟩ : RendererProps Nat) (3 : Nat)).2 hNine .engine rfl⟩

/-- C9: `canvasRef.current` is null on the first render (so the engine
acquisition at line 59 receives a null canvas), and stays null on every
render while the gate has only ever been closed, because the canvas
element is mounted only in the ready branch. -/
theorem C9_engine_receives_null_canvas {α ω ρ φ χ : Type}
    (wctx : ω) (fallback : Option φ) (rp : RendererProps ρ) (ch : χ) :
    (∀ (h : Handles α) (hs : List (Handles α)),
      (engineCanvasArgs wctx fallback rp ch (h :: hs) false).head? =
        some false) ∧
      (∀ hs : List (Handles α), (∀ h ∈ hs, gateOpen wctx h = false) →
        ∀ b ∈ engineCanvasArgs wctx fallback rp ch hs false, b = false) := by
  constructor
  · intro h hs; rfl
  · intro hs
    induction hs with
    | nil => intro _ b hb; cases hb
    | cons h rest ih =>
        intro hclosed b hb
        unfold engineCanvasArgs at hb
        rcases List.mem_cons.mp hb with hb | hb
        · exact hb
        · have hg : gateOpen wctx h = false :=
            hclosed h (List.mem_cons_self h rest)
          rw [containsCanvas_render, hg] at hb
          exact ih (fun x hx => hclosed x (List.mem_cons_of_mem h hx)) b hb

theorem C9_engine_receives_null_canvas_witness :
    (engineCanvasArgs () (some (7 : Nat)) (⟨0⟩ : RendererProps Nat) (3 : Nat)
        ([Handles.empty, hNine] : List (Handles Nat)) false).head? =
      some false ∧
      ∀ b ∈ engineCanvasArgs () (some (7 : Nat)) (⟨0⟩ : RendererProps Nat)
        (3 : Nat) ([Handles.empty, hNine] : List (Handles Nat)) false,
        b = false :=
  ⟨(C9_engine_receives_null_canvas () (some (7 : Nat))
      (⟨0⟩ : RendererProps Nat) (3 : Nat)).1 Handles.empty [hNine],
    (C9_engine_receives_null_canvas () (some (7 : Nat))
      (⟨0⟩ : RendererProps Nat) (3 : Nat)).2 [Handles.empty, hNine]
      (by decide)⟩

theorem hookStep_unit_fix (oracle : Nat → Outcome α) (u : Unit)
    (s : HookState Unit) (hl : s.lastDeps = some ()) :
    hookStep oracle u s = s := by
  obtain ⟨ld, i, r⟩ := s
  simp only at hl
  subst hl
  rfl

theorem foldl_hookStep_unit_fix (oracle : Nat → Outcome α) (vs : List Unit) :
    vs.foldl (fun s d => hookStep oracle d s)
        (⟨some (), 1, 0⟩ : HookState Unit) = ⟨some (), 1, 0⟩ := by
  induction vs with
  | nil => rfl
  | cons v rest ih =>
      rw [List.foldl_cons, hookStep_unit_fix oracle v ⟨some (), 1, 0⟩ rfl]
      exact ih

theorem hookRun_unit (oracle : Nat → Outcome α) (us : List Unit)
    (hne : us ≠ []) : hookRun oracle us = ⟨some (), 1, 0⟩ := by
  cases us with
  | nil => exact absurd rfl hne
  | cons u rest =>
      unfold hookRun
      rw [List.foldl_cons]
      have h1 : hookStep oracle u HookState.init =
          (⟨some (), 1, 0⟩ : HookState Unit) := rfl
      rw [h1]
      exact foldl_hookStep_unit_fix oracle rest

theorem unitTrace_const {ε : Type} (es : List (Option ε)) :
    es.map (fun _ => ()) = List.replicate es.length () := by
  induction es with
  | nil => rfl
  | cons e rest ih => simp [ih, List.replicate]

/-- C10: the choreographer acquisition is independent of the engine handle:
over any engine trace its hook issues exactly one acquisition on mount
(whatever the engine values, set or unset) and releases nothing, two
engine traces of equal length give identical choreographer hook states,
and a render step — in particular one where the engine identity changed —
leaves the choreographer's hook state unchanged. -/
theorem C10_choreographer_independent_of_engine {ε α : Type}
    (oracleC : Nat → Outcome α) :
    (∀ es : List (Option ε), es ≠ [] →
      hookRun (D := Unit) oracleC (es.map fun _ => ()) = ⟨some (), 1, 0⟩) ∧
      (∀ es₁ es₂ : List (Option ε), es₁.length = es₂.length →
        hookRun (D := Unit) oracleC (es₁.map fun _ => ()) =
          hookRun (D := Unit) oracleC (es₂.map fun _ => ())) ∧
      (∀ t : HookState Unit, t.lastDeps = some () →
        hookStep oracleC () t = t) := by
  refine ⟨?_, ?_, ?_⟩
  · intro es hne
    apply hookRun_unit
    intro hmap
    exact hne (List.map_eq_nil_iff.mp hmap)
  · intro es₁ es₂ hlen
    rw [unitTrace_const es₁, unitTrace_const es₂, hlen]
  · intro t ht
    exact hookStep_unit_fix oracleC () t ht

theorem C10_choreographer_independent_of_engine_witness :
    hookRun (D := Unit) oracleA
        (([none, some 1, some 2] : List (Option Nat)).map fun _ => ()) =
      ⟨some (), 1, 0⟩ ∧
      hookRun (D := Unit) oracleA
          (([none, some 1, some 2] : List (Option Nat)).map fun _ => ()) =
        hookRun (D := Unit) oracleA
          (([some 5, some 5, some 5] : List (Option Nat)).map fun _ => ()) ∧
      hookStep oracleA () (⟨some (), 1, 0⟩ : HookState Unit) = ⟨some (), 1, 0⟩ :=
  ⟨(C10_choreographer_independent_of_engine oracleA).1
      [none, some 1, some 2] (by decide),
    (C10_choreographer_independent_of_engine oracleA).2.1
      [none, some 1, some 2] [some 5, some 5, some 5] rfl,
    (C10_choreographer_independent_of_engine (ε := Nat) oracleA).2.2
      ⟨some (), 1, 0⟩ rfl⟩
